import Mathlib

/-!
Verification of the data-analysis pipeline abstracted from the repository's
two data-processing scripts (examples/python/data_processor.py, line mode;
examples/python/data_processor 2.py, tabular mode) against its
natural-language specification.

The Python code is shallowly embedded: strings are lists of characters,
pandas DataFrames are lists of typed columns, floats whose exact value the
spec constrains are modelled as rationals, and fallible operations return
Except.  Each definition is translated from the source script it names.
-/

namespace LineMode

/-!
Line mode: examples/python/data_processor.py.

read_data: `[line.strip() for line in f if line.strip()]`
analyze_data: total_lines = len(data); empty_lines = number of falsy
(empty) strings in data; avg_length = sum(len(line))/len(data) if data
else 0.
-/

/-- Whitespace as Python's str.strip() removes it (the ASCII whitespace
characters; the source files are ASCII so the Unicode cases never arise). -/
def isWS (c : Char) : Bool :=
  c = ' ' || c = '\t' || c = '\n' || c = '\r' || c = '\x0b' || c = '\x0c'

/-- Remove leading whitespace (Python str.lstrip). -/
def lstrip (l : List Char) : List Char := l.dropWhile isWS

/-- Remove trailing whitespace (Python str.rstrip). -/
def rstrip (l : List Char) : List Char := (l.reverse.dropWhile isWS).reverse

/-- Python str.strip(): remove leading and trailing whitespace. -/
def strip (l : List Char) : List Char := lstrip (rstrip l)

/-- Split file content into lines, as Python's file iteration yields them
(a trailing newline does not produce an extra empty line).  The newline kept
by Python at the end of each yielded line is dropped here; read_data strips
it anyway, so the composed readData is unchanged. -/
def splitLines : List Char → List (List Char)
  | [] => []
  | c :: cs =>
    if c = '\n' then [] :: splitLines cs
    else
      match splitLines cs with
      | [] => [[c]]
      | l :: ls => (c :: l) :: ls

/-- DataProcessor.read_data: strip every line, keep those whose stripped
form is non-empty (Python truthiness of a string is non-emptiness). -/
def readData (content : List Char) : List (List Char) :=
  (splitLines content).filterMap fun line =>
    let t := strip line
    if t = [] then none else some t

/-- The statistics dict returned by DataProcessor.analyze_data.  The float
avg_length is modelled as a rational: the source only ever divides a sum of
lengths by a count. -/
structure LineStats where
  total_lines : Nat
  empty_lines : Nat
  avg_length : ℚ
deriving Repr, DecidableEq

/-- DataProcessor.analyze_data, line for line:
total_lines = len(data); empty_lines = sum(1 for line in data if not line);
avg_length = sum(len(line) for line in data) / len(data) if data else 0. -/
def analyzeData (data : List (List Char)) : LineStats where
  total_lines := data.length
  empty_lines := (data.filter fun line => line = []).length
  avg_length :=
    if data = [] then 0
    else ((data.map List.length).sum : ℚ) / (data.length : ℚ)

/-! ### Helper lemmas about dropWhile and strip -/

theorem dropWhile_head_false {p : α → Bool} {l : List α} {c : α} {r : List α}
    (h : l.dropWhile p = c :: r) : p c = false := by
  induction l with
  | nil => simp [List.dropWhile] at h
  | cons a t ih =>
    rw [List.dropWhile_cons] at h
    by_cases hp : p a = true
    · simp [hp] at h; exact ih h
    · simp [hp] at h
      simpa [h.1] using (Bool.not_eq_true _).mp hp

theorem dropWhile_idem (p : α → Bool) (l : List α) :
    (l.dropWhile p).dropWhile p = l.dropWhile p := by
  cases h : l.dropWhile p with
  | nil => simp
  | cons c r =>
    rw [List.dropWhile_cons]
    simp [dropWhile_head_false h]

theorem exists_append_dropWhile (p : α → Bool) (l : List α) :
    ∃ t, l = t ++ l.dropWhile p := by
  induction l with
  | nil => exact ⟨[], rfl⟩
  | cons a t ih =>
    rw [List.dropWhile_cons]
    by_cases hp : p a = true
    · obtain ⟨u, hu⟩ := ih
      exact ⟨a :: u, by simp [hp, ← hu]⟩
    · simp [hp]

/-- rstrip is the identity on the output of strip: strip already removed
the trailing whitespace. -/
theorem rstrip_strip (l : List Char) : rstrip (strip l) = strip l := by
  have hm : (rstrip l).reverse = l.reverse.dropWhile isWS := by
    simp [rstrip]
  obtain ⟨t, ht⟩ := exists_append_dropWhile isWS (rstrip l)
  have hrevsplit : (rstrip l).reverse
      = (strip l).reverse ++ t.reverse := by
    conv_lhs => rw [ht]
    simp [strip, lstrip]
  cases hrev : (strip l).reverse with
  | nil =>
    have : strip l = [] := by simpa using congrArg List.reverse hrev
    simp [this, rstrip]
  | cons c r =>
    have hc : isWS c = false := by
      have : l.reverse.dropWhile isWS = c :: (r ++ t.reverse) := by
        rw [← hm, hrevsplit, hrev]; simp
      exact dropWhile_head_false this
    have : (strip l).reverse.dropWhile isWS = (strip l).reverse := by
      rw [hrev, List.dropWhile_cons]
      simp [hc]
    calc rstrip (strip l) = ((strip l).reverse.dropWhile isWS).reverse := rfl
      _ = (strip l).reverse.reverse := by rw [this]
      _ = strip l := by simp

/-- Python's strip is idempotent. -/
theorem strip_idem (l : List Char) : strip (strip l) = strip l := by
  calc strip (strip l) = lstrip (strip l) := by rw [strip, rstrip_strip]
    _ = strip l := dropWhile_idem isWS (rstrip l)

theorem readData_mem {content : List Char} {l : List Char}
    (h : l ∈ readData content) : strip l = l ∧ l ≠ [] := by
  unfold readData at h
  rw [List.mem_filterMap] at h
  obtain ⟨line, _, hf⟩ := h
  by_cases hc : strip line = []
  · simp [hc] at hf
  · rw [if_neg hc] at hf
    obtain rfl := Option.some_injective _ hf
    exact ⟨strip_idem line, hc⟩

theorem empty_lines_readData (content : List Char) :
    (analyzeData (readData content)).empty_lines = 0 := by
  simp only [analyzeData, List.length_eq_zero, List.filter_eq_nil_iff]
  intro a ha
  simp [(readData_mem ha).2]

/-- The sample input of the spec's line-oriented scenario. -/
def scenarioInput : List Char := "hello\n\nworld  \n".data

/-- C1, counterexample: on the scenario input "hello\n\nworld  \n" the code
yields empty_lines = 0, not 1 as the claim states — analyze_data counts the
empty strings in the list read_data returns, and read_data has already
dropped every line that is empty after stripping. -/
theorem C1_scenario_empty_lines_zero :
    readData scenarioInput = ["hello".data, "world".data] ∧
    (analyzeData (readData scenarioInput)).empty_lines = 0 ∧
    ¬ (analyzeData (readData scenarioInput)).empty_lines = 1 := by
  refine ⟨by decide, by decide, by decide⟩

/-- C1, amended: the Analyzer's empty_lines metric counts the empty strings
in the Dataset it is given; the Loader drops empty lines, so the pipeline's
empty_lines is 0 for every input, and the scenario input yields
Dataset = ["hello", "world"], total_lines = 2, empty_lines = 0,
avg_length = 5.0. -/
theorem C1_line_scenario :
    (∀ content : List Char, (analyzeData (readData content)).empty_lines = 0) ∧
    readData scenarioInput = ["hello".data, "world".data] ∧
    (analyzeData (readData scenarioInput)).total_lines = 2 ∧
    (analyzeData (readData scenarioInput)).empty_lines = 0 ∧
    (analyzeData (readData scenarioInput)).avg_length = 5 := by
  refine ⟨empty_lines_readData, by decide, by decide, by decide, ?_⟩
  have h1 : (List.map List.length (readData scenarioInput)).sum = 10 := by decide
  have h2 : (readData scenarioInput).length = 2 := by decide
  have h3 : readData scenarioInput ≠ [] := by decide
  simp [analyzeData, h3, h1, h2]
  norm_num

/-- C2: analyze_data returns avg_length = 0 on the empty Dataset instead of
faulting on division by zero, and on every non-empty Dataset of trimmed
lines (the invariant of a line-mode Dataset) it returns the arithmetic mean
of the trimmed line lengths. -/
theorem C2_avg_length (data : List (List Char))
    (hinv : ∀ l ∈ data, strip l = l) :
    (data = [] → (analyzeData data).avg_length = 0) ∧
    (data ≠ [] →
      (analyzeData data).avg_length
        = ((data.map fun l => (strip l).length).sum : ℚ) / (data.length : ℚ)) := by
  constructor
  · intro h; simp [analyzeData, h]
  · intro h
    have hmap : data.map (fun l => (strip l).length) = data.map List.length :=
      List.map_congr_left fun l hl => by rw [hinv l hl]
    simp [analyzeData, h, hmap]

/-- C2, witness: the two parts of C2_avg_length at the concrete Dataset
["ab", "c"]. -/
theorem C2_avg_length_witness :
    (["ab".data, "c".data] = ([] : List (List Char)) →
      (analyzeData ["ab".data, "c".data]).avg_length = 0) ∧
    (["ab".data, "c".data] ≠ ([] : List (List Char)) →
      (analyzeData ["ab".data, "c".data]).avg_length
        = ((["ab".data, "c".data].map fun l => (strip l).length).sum : ℚ)
            / ((["ab".data, "c".data] : List (List Char)).length : ℚ)) :=
  C2_avg_length ["ab".data, "c".data] (by decide)

/-- C10: every string of a Loader-produced line-mode Dataset is non-empty
and equal to its own trimmed form (whitespace-only lines are dropped just
like empty ones), so applying the Analyzer to a Loader-produced Dataset
always yields empty_lines = 0. -/
theorem C10_loader_invariant (content : List Char) :
    (∀ l ∈ readData content, l ≠ [] ∧ strip l = l) ∧
    (analyzeData (readData content)).empty_lines = 0 := by
  refine ⟨fun l hl => ⟨(readData_mem hl).2, (readData_mem hl).1⟩, ?_⟩
  exact empty_lines_readData content

end LineMode

namespace Tabular

/-!
Tabular mode: examples/python/data_processor 2.py.  load_data reads a CSV
file with pd.read_csv; process_data builds row_count, column_count,
missing_values (isnull().sum()) and numeric_stats (describe());
save_results writes statistics.json and an unchanged processed_data.csv.
-/

/-- A raw CSV field, after the line has been split at the delimiter.  CSV
quoting is a bijective line encoding that pandas applies on both sides of a
write/read round trip, so the model works with the split fields. -/
abbrev Field := List Char

/-- A cell of a loaded DataFrame.  pandas type inference is modelled for
integer and string data: the numeric literals are optionally negated digit
runs (decimal and scientific literals, booleans and the extended NA-marker
set are orthogonal to the claims and are not modelled), and an empty field
is the missing value NaN. -/
inductive Cell where
  | null : Cell
  | int (z : ℤ) : Cell
  | str (s : Field) : Cell
deriving Repr, DecidableEq

/-- The decimal digit characters. -/
def digitChar : ℕ → Char
  | 0 => '0' | 1 => '1' | 2 => '2' | 3 => '3' | 4 => '4'
  | 5 => '5' | 6 => '6' | 7 => '7' | 8 => '8' | _ => '9'

/-- The numeric value of a digit character. -/
def charVal (c : Char) : ℕ := c.toNat - 48

/-- Decimal rendering of a natural number, most significant digit first
(Python str on int). -/
def repNat (n : ℕ) : List Char :=
  if n = 0 then ['0'] else (Nat.digits 10 n).reverse.map digitChar

/-- Decimal rendering of an integer (the form to_csv writes). -/
def repInt (z : ℤ) : Field :=
  if z < 0 then '-' :: repNat z.natAbs else repNat z.natAbs

/-- Value of a digit run, most significant digit first. -/
def parseNat (f : List Char) : ℕ := f.foldl (fun a c => 10 * a + charVal c) 0

/-- Does the field consist of an optional minus sign followed by a
non-empty digit run? -/
def isIntLit (f : Field) : Bool :=
  if f.head? = some '-' then !f.tail.isEmpty && f.tail.all (·.isDigit)
  else !f.isEmpty && f.all (·.isDigit)

/-- Integer value of a field accepted by isIntLit. -/
def parseIntLit (f : Field) : ℤ :=
  if f.head? = some '-' then -(parseNat f.tail : ℤ) else (parseNat f : ℤ)

/-- pandas column type inference: a column is numeric when every field is
empty or an integer literal (an all-empty column is the all-NaN float
column, which is numeric). -/
def colNumeric (fields : List Field) : Bool :=
  fields.all fun f => f.isEmpty || isIntLit f

/-- pd.read_csv, per column: an empty field becomes NaN; in a numeric
column the remaining fields are parsed, in an object column they stay
strings. -/
def inferCol (fields : List Field) : List Cell :=
  if colNumeric fields then
    fields.map fun f => if f.isEmpty then Cell.null else Cell.int (parseIntLit f)
  else
    fields.map fun f => if f.isEmpty then Cell.null else Cell.str f

/-- to_csv of one cell: NaN prints as the empty field. -/
def printCell : Cell → Field
  | Cell.null => []
  | Cell.int z => repInt z
  | Cell.str s => s

/-- A delimited tabular file, modelled after the lines are split at the
delimiter: a header row of column names, then the data rows. -/
structure Csv where
  header : List Field
  rows : List (List Field)
deriving Repr, DecidableEq

/-- Every data row has as many fields as the header row (pd.read_csv does
not accept arbitrary ragged rows; the model takes the spec's strict
reading of well-formedness). -/
def Csv.WellFormed (c : Csv) : Prop := ∀ r ∈ c.rows, r.length = c.header.length

instance (c : Csv) : Decidable c.WellFormed := by
  unfold Csv.WellFormed; infer_instance

/-- The in-memory DataFrame: the column names and the columns' cells. -/
structure Dataset where
  colNames : List Field
  columns : List (List Cell)
deriving Repr, DecidableEq

/-- Column j of the raw file. -/
def rawCol (c : Csv) (j : ℕ) : List Field := c.rows.map fun r => r.getD j []

/-- DataProcessor.load_data: pd.read_csv on the input file. -/
def loadCsv (c : Csv) : Dataset where
  colNames := c.header
  columns := (List.range c.header.length).map fun j => inferCol (rawCol c j)

/-- len(self.data): the number of rows of the DataFrame. -/
def Dataset.nrows (ds : Dataset) : ℕ :=
  match ds.columns with
  | [] => 0
  | col :: _ => col.length

/-- to_csv(index=False): the header line, then each row printed cell by
cell. -/
def writeCsv (ds : Dataset) : Csv where
  header := ds.colNames
  rows := (List.range ds.nrows).map fun i =>
    ds.columns.map fun col => printCell (col.getD i Cell.null)

/-- Is the cell the missing value?  (isnull, per cell.) -/
def cellIsNull : Cell → Bool
  | Cell.null => true
  | _ => false

/-- dtype of a loaded column: numeric when it holds no string cell. -/
def colIsNumericCells (col : List Cell) : Bool :=
  col.all fun c =>
    match c with
    | Cell.str _ => false
    | _ => true

/-- The integer values of a column's non-null cells. -/
def colInts (col : List Cell) : List ℤ :=
  col.filterMap fun c =>
    match c with
    | Cell.int z => some z
    | _ => none

/-- The string values of a column's non-null cells. -/
def colStrs (col : List Cell) : List Field :=
  col.filterMap fun c =>
    match c with
    | Cell.str s => some s
    | _ => none

/-- A value in the describe() table.  sqrtVal q denotes the real square
root of q: describe's std is a float square root, whose square, the sample
variance, is the rational the model records. -/
inductive StatVal where
  | num (q : ℚ) : StatVal
  | sqrtVal (q : ℚ) : StatVal
  | nan : StatVal
  | strv (s : Field) : StatVal
deriving Repr, DecidableEq

/-- A percentile of a sorted list by numpy's default linear-interpolation
method, the fixed method describe() uses: the value at fractional position
q * (n - 1) in the sorted data, interpolating linearly between the two
adjacent order statistics. -/
def quantileLinear (q : ℚ) (v : List ℤ) : ℚ :=
  let h : ℚ := q * ((v.length : ℚ) - 1)
  let lo : ℕ := ⌊h⌋.toNat
  let hi : ℕ := ⌈h⌉.toNat
  let a : ℚ := ((v.getD lo 0 : ℤ) : ℚ)
  let b : ℚ := ((v.getD hi 0 : ℤ) : ℚ)
  a + (h - (lo : ℚ)) * (b - a)

/-- The mean of a list of integers, as a rational. -/
def meanQ (vals : List ℤ) : ℚ := ((vals.sum : ℤ) : ℚ) / (vals.length : ℚ)

/-- The sample variance (ddof = 1): the square of describe's std. -/
def sampleVar (vals : List ℤ) : ℚ :=
  (vals.map fun x => ((x : ℚ) - meanQ vals) ^ 2).sum / ((vals.length : ℚ) - 1)

/-- The ascending sort the order statistics are taken from. -/
def sortInts (vals : List ℤ) : List ℤ := List.insertionSort (· ≤ ·) vals

/-- describe() of one numeric column: the count of non-null values, then
mean, std, min, the three quartiles by linear interpolation, and max; NaN
for each statistic a too-small count leaves undefined. -/
def describeNumericCol (col : List Cell) : List (String × StatVal) :=
  let vals := colInts col
  let n := vals.length
  if n = 0 then
    [("count", StatVal.num 0), ("mean", StatVal.nan), ("std", StatVal.nan),
     ("min", StatVal.nan), ("25%", StatVal.nan), ("50%", StatVal.nan),
     ("75%", StatVal.nan), ("max", StatVal.nan)]
  else
    let sorted := sortInts vals
    [("count", StatVal.num n), ("mean", StatVal.num (meanQ vals)),
     ("std", if n = 1 then StatVal.nan else StatVal.sqrtVal (sampleVar vals)),
     ("min", StatVal.num ((sorted.getD 0 0 : ℤ) : ℚ)),
     ("25%", StatVal.num (quantileLinear (1/4) sorted)),
     ("50%", StatVal.num (quantileLinear (1/2) sorted)),
     ("75%", StatVal.num (quantileLinear (3/4) sorted)),
     ("max", StatVal.num ((sorted.getD (n - 1) 0 : ℤ) : ℚ))]

/-- The most frequent value of a list and its frequency (ties resolved to
the earliest value, one definite choice of pandas' unspecified tie order). -/
def topFreq (vals : List Field) : Field × ℕ :=
  vals.foldl
    (fun best v =>
      let c := vals.count v
      if best.2 < c then (v, c) else best)
    ([], 0)

/-- describe() of one object column: the count of non-null values, the
number of distinct values, the most frequent value and its frequency. -/
def describeObjectCol (col : List Cell) : List (String × StatVal) :=
  let vals := colStrs col
  if vals.isEmpty then
    [("count", StatVal.num 0), ("unique", StatVal.num 0),
     ("top", StatVal.nan), ("freq", StatVal.nan)]
  else
    [("count", StatVal.num vals.length),
     ("unique", StatVal.num vals.dedup.length),
     ("top", StatVal.strv (topFreq vals).1),
     ("freq", StatVal.num (topFreq vals).2)]

/-- DataFrame.describe(): with at least one numeric column it summarises
exactly the numeric columns; with none it falls back to summarising the
object columns instead. -/
def describe (ds : Dataset) : List (Field × List (String × StatVal)) :=
  let pairs := ds.colNames.zip ds.columns
  let numeric := pairs.filter fun p => colIsNumericCells p.2
  if numeric.isEmpty then pairs.map fun p => (p.1, describeObjectCol p.2)
  else numeric.map fun p => (p.1, describeNumericCol p.2)

/-- The stats dict built by DataProcessor.process_data. -/
structure TabStats where
  row_count : ℕ
  column_count : ℕ
  missing_values : List (Field × ℕ)
  numeric_stats : List (Field × List (String × StatVal))
deriving Repr, DecidableEq

/-- DataProcessor.process_data on a loaded DataFrame: row_count =
len(self.data), column_count = len(self.data.columns), missing_values =
isnull().sum().to_dict(), numeric_stats = describe().to_dict(). -/
def processData (ds : Dataset) : TabStats where
  row_count := ds.nrows
  column_count := ds.colNames.length
  missing_values :=
    ds.colNames.zip (ds.columns.map fun col => (col.filter cellIsNull).length)
  numeric_stats := describe ds

/-- The error taxonomy as the scripts realise it: FileNotFoundError for a
missing input, ValueError for process_data before load_data. -/
inductive Err where
  | notFoundError : Err
  | invalidStateError : Err
deriving Repr, DecidableEq

/-- The two files save_results writes into the output directory,
statistics.json and processed_data.csv, modelled structurally. -/
structure OutputFiles where
  statistics : TabStats
  processed_data : Csv
deriving Repr, DecidableEq

/-- main() of data_processor 2.py: load_data, process_data, save_results in
sequence; an error aborts the run before anything is written. -/
def runPipeline (fs : List Char → Option Csv) (input : List Char) :
    Except Err OutputFiles :=
  match fs input with
  | none => Except.error Err.notFoundError
  | some raw =>
    let ds := loadCsv raw
    Except.ok { statistics := processData ds, processed_data := writeCsv ds }

/-- Does the run leave output files? -/
def producesOutput : Except Err OutputFiles → Bool
  | Except.ok _ => true
  | Except.error _ => false

/-- The line-mode script on a missing path: DataProcessor.__init__ raises
FileNotFoundError before anything is read, and the script writes no file in
any case. -/
def runLinePipeline (fs : List Char → Option (List Char)) (input : List Char) :
    Except Err LineMode.LineStats :=
  match fs input with
  | none => Except.error Err.notFoundError
  | some content => Except.ok (LineMode.analyzeData (LineMode.readData content))

/-- The mutable state of data_processor 2.py's DataProcessor object. -/
structure Processor where
  input_file : List Char
  output_dir : List Char
  data : Option Dataset
deriving Repr, DecidableEq

/-- DataProcessor.process_data as a state transition: it raises ValueError
when self.data is None, and it assigns no attribute either way. -/
def Processor.process (p : Processor) : Except Err TabStats × Processor :=
  match p.data with
  | none => (Except.error Err.invalidStateError, p)
  | some ds => (Except.ok (processData ds), p)

end Tabular

namespace Tabular

/-! ### Basic facts about loading -/

theorem inferCol_length (fs : List Field) : (inferCol fs).length = fs.length := by
  unfold inferCol; split <;> simp

theorem rawCol_length (c : Csv) (j : ℕ) : (rawCol c j).length = c.rows.length := by
  simp [rawCol]

theorem loadCsv_columns_length (c : Csv) :
    (loadCsv c).columns.length = c.header.length := by
  simp [loadCsv]

theorem loadCsv_col_length {c : Csv} {col : List Cell}
    (h : col ∈ (loadCsv c).columns) : col.length = c.rows.length := by
  simp only [loadCsv, List.mem_map] at h
  obtain ⟨j, _, rfl⟩ := h
  rw [inferCol_length, rawCol_length]

theorem loadCsv_nrows {c : Csv} (hh : c.header ≠ []) :
    (loadCsv c).nrows = c.rows.length := by
  unfold Dataset.nrows
  cases hcols : (loadCsv c).columns with
  | nil =>
    exfalso
    have := loadCsv_columns_length c
    rw [hcols] at this
    exact hh (List.length_eq_zero.mp this.symm)
  | cons col rest =>
    exact loadCsv_col_length (hcols ▸ List.mem_cons_self col rest)

/-- C3: for every well-formed tabular input with N records and C distinct
columns, the report's row_count is N and its column_count is C. -/
theorem C3_row_col_counts (c : Csv) (hwf : c.WellFormed)
    (hnd : c.header.Nodup) (hh : c.header ≠ []) :
    (processData (loadCsv c)).row_count = c.rows.length ∧
    (processData (loadCsv c)).column_count = c.header.length := by
  refine ⟨?_, rfl⟩
  simpa [processData] using loadCsv_nrows hh

/-- The mixed sample file: header a,b with rows 1,x and (empty),2.  Column
a loads as the numeric column [1, NaN]; column b, which holds the
non-numeric field x, loads as the object column ["x", "2"]. -/
def csvAB : Csv := { header := [['a'], ['b']], rows := [[['1'], ['x']], [[], ['2']]] }

/-- C3, witness: on the 2-by-2 sample file the report has row_count = 2 and
column_count = 2. -/
theorem C3_row_col_counts_witness :
    (processData (loadCsv csvAB)).row_count = 2 ∧
    (processData (loadCsv csvAB)).column_count = 2 :=
  C3_row_col_counts csvAB (by decide) (by decide) (by decide)

/-! ### Missing values -/

theorem nullCount_inferCol (fs : List Field) :
    ((inferCol fs).filter cellIsNull).length = (fs.filter List.isEmpty).length := by
  unfold inferCol
  split <;>
  · rw [← List.countP_eq_length_filter, ← List.countP_eq_length_filter, List.countP_map]
    refine List.countP_congr fun f _ => ?_
    by_cases he : f.isEmpty <;> simp [he, cellIsNull, Function.comp]

/-- C5: missing_values maps each column to the exact number of null/empty
cells in that column (equivalently: of empty fields in that raw column),
and the per-column counts sum to at most row_count * column_count. -/
theorem C5_missing_values (c : Csv) (hwf : c.WellFormed) (hh : c.header ≠ []) :
    (processData (loadCsv c)).missing_values
      = c.header.zip ((List.range c.header.length).map fun j =>
          ((rawCol c j).filter List.isEmpty).length) ∧
    ((processData (loadCsv c)).missing_values.map Prod.snd).sum
      ≤ (processData (loadCsv c)).row_count * (processData (loadCsv c)).column_count := by
  have hmap : (loadCsv c).columns.map (fun col => (col.filter cellIsNull).length)
      = (List.range c.header.length).map fun j =>
          ((rawCol c j).filter List.isEmpty).length := by
    simp only [loadCsv, List.map_map]
    exact List.map_congr_left fun j _ => nullCount_inferCol (rawCol c j)
  constructor
  · simp only [processData, loadCsv]
    simp only [loadCsv] at hmap
    rw [hmap]
  · have hsnd : ((processData (loadCsv c)).missing_values.map Prod.snd)
        = (loadCsv c).columns.map (fun col => (col.filter cellIsNull).length) := by
      simp only [processData]
      apply List.map_snd_zip
      simp [loadCsv]
    rw [hsnd]
    have hbound : ∀ x ∈ (loadCsv c).columns.map (fun col => (col.filter cellIsNull).length),
        x ≤ c.rows.length := by
      intro x hx
      simp only [List.mem_map] at hx
      obtain ⟨col, hcol, rfl⟩ := hx
      calc (col.filter cellIsNull).length ≤ col.length := List.length_filter_le _ _
        _ = c.rows.length := loadCsv_col_length hcol
    calc ((loadCsv c).columns.map fun col => (col.filter cellIsNull).length).sum
        ≤ ((loadCsv c).columns.map fun col => (col.filter cellIsNull).length).length
            * c.rows.length := by
          simpa [smul_eq_mul] using
            List.sum_le_card_nsmul _ c.rows.length hbound
      _ = (processData (loadCsv c)).row_count * (processData (loadCsv c)).column_count := by
          have hnames : (loadCsv c).colNames = c.header := rfl
          simp [processData, loadCsv_nrows hh, loadCsv_columns_length, hnames,
            Nat.mul_comm]

/-- C5, witness: C5_missing_values on the 2-by-2 sample file. -/
theorem C5_missing_values_witness :
    (processData (loadCsv csvAB)).missing_values
      = csvAB.header.zip ((List.range csvAB.header.length).map fun j =>
          ((rawCol csvAB j).filter List.isEmpty).length) ∧
    ((processData (loadCsv csvAB)).missing_values.map Prod.snd).sum
      ≤ (processData (loadCsv csvAB)).row_count
          * (processData (loadCsv csvAB)).column_count :=
  C5_missing_values csvAB (by decide) (by decide)

/-! ### Error handling -/

/-- C7: on a path the file system does not hold, both scripts fail with the
not-found error and the run produces no output files. -/
theorem C7_not_found (fs : List Char → Option Csv)
    (fsl : List Char → Option (List Char)) (input : List Char)
    (h : fs input = none) (hl : fsl input = none) :
    runPipeline fs input = Except.error Err.notFoundError ∧
    producesOutput (runPipeline fs input) = false ∧
    runLinePipeline fsl input = Except.error Err.notFoundError := by
  simp [runPipeline, runLinePipeline, producesOutput, h, hl]

/-- C7, witness: C7_not_found on the empty file system. -/
theorem C7_not_found_witness :
    runPipeline (fun _ => none) [] = Except.error Err.notFoundError ∧
    producesOutput (runPipeline (fun _ => none) []) = false ∧
    runLinePipeline (fun _ => none) [] = Except.error Err.notFoundError :=
  C7_not_found (fun _ => none) (fun _ => none) [] rfl rfl

/-- C8: process_data fails with the invalid-state error exactly when no
Dataset has been loaded (self.data is None), and the failing call leaves
the processor's state unchanged and returns no statistics. -/
theorem C8_invalid_state (p : Processor) :
    (p.process.1 = Except.error Err.invalidStateError ↔ p.data = none) ∧
    p.process.2 = p := by
  cases h : p.data <;> simp [Processor.process, h]

/-- C9: the Analyzer is the pure function processData of the Dataset: a run
whose load succeeds yields exactly the statistics of the loaded Dataset and
persists that same Dataset, unmodified, through the Writer. -/
theorem C9_analyzer_pure (fs : List Char → Option Csv) (input : List Char)
    (raw : Csv) (h : fs input = some raw) :
    runPipeline fs input
      = Except.ok { statistics := processData (loadCsv raw),
                    processed_data := writeCsv (loadCsv raw) } := by
  simp [runPipeline, h]

/-- C9, witness: C9_analyzer_pure on a file system holding the sample file. -/
theorem C9_analyzer_pure_witness :
    runPipeline (fun _ => some csvAB) []
      = Except.ok { statistics := processData (loadCsv csvAB),
                    processed_data := writeCsv (loadCsv csvAB) } :=
  C9_analyzer_pure (fun _ => some csvAB) [] csvAB rfl

end Tabular

namespace Tabular

/-! ### Decimal rendering round-trips through parsing -/

theorem charVal_digitChar {d : ℕ} (hd : d < 10) : charVal (digitChar d) = d := by
  interval_cases d <;> decide

theorem digitChar_isDigit (d : ℕ) : (digitChar d).isDigit = true := by
  rcases d with _|_|_|_|_|_|_|_|_|_ <;> rfl

theorem foldl_digits (L : List ℕ) (hL : ∀ d ∈ L, d < 10) (a : ℕ) :
    (L.reverse.map digitChar).foldl (fun x c => 10 * x + charVal c) a
      = a * 10 ^ L.length + Nat.ofDigits 10 L := by
  induction L generalizing a with
  | nil => simp
  | cons d L ih =>
    rw [List.reverse_cons, List.map_append, List.foldl_append]
    simp only [List.map_cons, List.map_nil, List.foldl_cons, List.foldl_nil]
    rw [ih (fun x hx => hL x (List.mem_cons_of_mem _ hx)) a,
      charVal_digitChar (hL d (List.mem_cons_self _ _)), Nat.ofDigits_cons,
      List.length_cons]
    ring

theorem parseNat_repNat (n : ℕ) : parseNat (repNat n) = n := by
  unfold repNat parseNat
  by_cases h : n = 0
  · subst h; decide
  · rw [if_neg h]
    have := foldl_digits (Nat.digits 10 n)
      (fun d hd => Nat.digits_lt_base (by norm_num) hd) 0
    simpa [Nat.ofDigits_digits] using this

theorem repNat_ne_nil (n : ℕ) : repNat n ≠ [] := by
  unfold repNat
  split
  · simp
  · simp only [ne_eq, List.map_eq_nil_iff, List.reverse_eq_nil_iff]
    exact Nat.digits_ne_nil_iff_ne_zero.mpr (by assumption)

theorem repNat_all_digits (n : ℕ) : ∀ c ∈ repNat n, c.isDigit = true := by
  intro c hc
  unfold repNat at hc
  split at hc
  · simp only [List.mem_singleton] at hc
    subst hc; decide
  · simp only [List.mem_map, List.mem_reverse] at hc
    obtain ⟨d, _, rfl⟩ := hc
    exact digitChar_isDigit d

theorem head?_eq_some_mem {α} {l : List α} {c : α} (h : l.head? = some c) :
    c ∈ l := by
  cases l with
  | nil => simp at h
  | cons a t =>
    simp only [List.head?_cons, Option.some.injEq] at h
    exact h ▸ List.mem_cons_self a t

theorem repNat_head_ne_minus (n : ℕ) : (repNat n).head? ≠ some '-' := by
  intro h
  have hmem := head?_eq_some_mem h
  exact absurd (repNat_all_digits n _ hmem) (by decide)

theorem repNat_lit_ok (n : ℕ) :
    (!(repNat n).isEmpty && (repNat n).all (·.isDigit)) = true := by
  simp only [Bool.and_eq_true, Bool.not_eq_true', List.all_eq_true]
  refine ⟨?_, fun c hc => repNat_all_digits n c hc⟩
  cases h : repNat n with
  | nil => exact absurd h (repNat_ne_nil n)
  | cons a t => rfl

theorem parseIntLit_repInt (z : ℤ) : parseIntLit (repInt z) = z := by
  unfold repInt parseIntLit
  by_cases hz : z < 0
  · rw [if_pos hz]
    simp only [List.head?_cons, List.tail_cons, if_pos]
    rw [parseNat_repNat]
    omega
  · rw [if_neg hz, if_neg (repNat_head_ne_minus z.natAbs), parseNat_repNat]
    omega

theorem isIntLit_repInt (z : ℤ) : isIntLit (repInt z) = true := by
  unfold repInt isIntLit
  by_cases hz : z < 0
  · rw [if_pos hz]
    simp only [List.head?_cons, List.tail_cons, if_pos]
    exact repNat_lit_ok z.natAbs
  · rw [if_neg hz, if_neg (repNat_head_ne_minus z.natAbs)]
    exact repNat_lit_ok z.natAbs

theorem repInt_ne_nil (z : ℤ) : repInt z ≠ [] := by
  unfold repInt
  split
  · simp
  · exact repNat_ne_nil _

/-! ### Reload of a printed column -/

theorem inferCol_print (fs : List Field) :
    inferCol ((inferCol fs).map printCell) = inferCol fs := by
  by_cases h : colNumeric fs = true
  · have hp : (inferCol fs).map printCell
        = fs.map fun f => if f.isEmpty then [] else repInt (parseIntLit f) := by
      rw [inferCol, if_pos h, List.map_map]
      refine List.map_congr_left fun f _ => ?_
      by_cases he : f = []
      · subst he; rfl
      · have he2 : f.isEmpty = false := by simp [he]
        simp [he2, he, printCell]
    have hnum : colNumeric ((inferCol fs).map printCell) = true := by
      rw [hp, colNumeric, List.all_eq_true]
      intro g hg
      obtain ⟨f, _, rfl⟩ := List.mem_map.mp hg
      by_cases he : f.isEmpty = true
      · simp [he]
      · simp [he, isIntLit_repInt]
    rw [inferCol, if_pos hnum, hp, List.map_map, inferCol, if_pos h]
    refine List.map_congr_left fun f _ => ?_
    by_cases he : f.isEmpty = true
    · simp [he, Function.comp]
    · have hne : (repInt (parseIntLit f)).isEmpty = false := by
        cases hrep : repInt (parseIntLit f) with
        | nil => exact absurd hrep (repInt_ne_nil _)
        | cons a t => rfl
      simp [he, hne, parseIntLit_repInt, Function.comp]
  · have hfalse : colNumeric fs = false := by
      cases hcn : colNumeric fs
      · rfl
      · exact absurd hcn h
    have hp : (inferCol fs).map printCell = fs := by
      rw [inferCol, if_neg h, List.map_map]
      have hpt : ∀ f ∈ fs,
          (printCell ∘ fun f => if f.isEmpty then Cell.null else Cell.str f) f
            = id f := by
        intro f _
        by_cases he : f.isEmpty = true
        · have : f = [] := by
            cases f with
            | nil => rfl
            | cons a t => exact absurd he (by simp)
          simp [this, printCell, Function.comp]
        · simp [he, printCell, Function.comp]
      rw [List.map_congr_left hpt, List.map_id]
    rw [hp]

/-! ### getD bookkeeping for the written rows -/

theorem getD_map_lt {α β} (f : α → β) (l : List α) {j : ℕ} (h : j < l.length)
    (d : β) (d' : α) : (l.map f).getD j d = f (l.getD j d') := by
  rw [List.getD_eq_getElem _ _ (by simpa using h), List.getD_eq_getElem _ _ h]
  simp

theorem range_map_getD {α β} (f : α → β) (l : List α) (d : α) :
    (List.range l.length).map (fun i => f (l.getD i d)) = l.map f := by
  induction l with
  | nil => simp
  | cons a t ih =>
    rw [List.length_cons, List.range_succ_eq_map, List.map_cons]
    congr 1
    rw [List.map_map]
    have hcomp : ((fun i => f ((a :: t).getD i d)) ∘ (· + 1))
        = fun i => f (t.getD i d) := by
      funext i
      simp [List.getD_cons_succ]
    rw [hcomp, ih]

theorem getD_range {n j : ℕ} (h : j < n) : (List.range n).getD j 0 = j := by
  rw [List.getD_eq_getElem _ _ (by simpa using h)]
  simp

/-- C6: writing the loaded Dataset back with the Writer and reloading the
written file with the Loader reproduces the Dataset, field for field. -/
theorem C6_round_trip (c : Csv) (hwf : c.WellFormed) (hh : c.header ≠ []) :
    loadCsv (writeCsv (loadCsv c)) = loadCsv c := by
  have hmk : ∀ d e : Dataset, d.colNames = e.colNames → d.columns = e.columns →
      d = e := by
    intro d e h1 h2
    cases d; cases e
    simp_all
  refine hmk _ _ rfl ?_
  show (List.range (writeCsv (loadCsv c)).header.length).map
      (fun j => inferCol (rawCol (writeCsv (loadCsv c)) j))
    = (List.range c.header.length).map fun j => inferCol (rawCol c j)
  have hwh : (writeCsv (loadCsv c)).header = c.header := rfl
  rw [hwh]
  refine List.map_congr_left fun j hj => ?_
  rw [List.mem_range] at hj
  have hcolj : (loadCsv c).columns.getD j [] = inferCol (rawCol c j) := by
    show ((List.range c.header.length).map
        (fun j => inferCol (rawCol c j))).getD j [] = _
    rw [getD_map_lt _ _ (by simpa using hj) [] 0, getD_range hj]
  have hraw : rawCol (writeCsv (loadCsv c)) j
      = (inferCol (rawCol c j)).map printCell := by
    show (((List.range (loadCsv c).nrows).map fun i =>
        (loadCsv c).columns.map fun col => printCell (col.getD i Cell.null)).map
          fun r => r.getD j []) = _
    rw [List.map_map]
    have hstep : ((fun r => r.getD j ([] : Field)) ∘ fun i =>
        (loadCsv c).columns.map fun col => printCell (col.getD i Cell.null))
          = fun i => printCell (((loadCsv c).columns.getD j []).getD i Cell.null) := by
      funext i
      have hjlen : j < (loadCsv c).columns.length := by
        rw [loadCsv_columns_length]; exact hj
      exact getD_map_lt _ _ hjlen [] []
    rw [hstep]
    have hnr : (loadCsv c).nrows = ((loadCsv c).columns.getD j []).length := by
      rw [hcolj, loadCsv_nrows hh, inferCol_length, rawCol_length]
    rw [hnr, range_map_getD, hcolj]
  rw [hraw, inferCol_print]

/-- C6, witness: the round trip on the 2-by-2 sample file, whose columns
load as one numeric and one object column. -/
theorem C6_round_trip_witness :
    loadCsv (writeCsv (loadCsv csvAB)) = loadCsv csvAB :=
  C6_round_trip csvAB (by decide) (by decide)

end Tabular

namespace Tabular

/-! ### describe() -/

theorem describeNumericCol_keys (col : List Cell) :
    (describeNumericCol col).map Prod.fst
      = ["count", "mean", "std", "min", "25%", "50%", "75%", "max"] := by
  simp only [describeNumericCol]
  split <;> rfl

theorem describeNumericCol_lookup (col : List Cell) (h : colInts col ≠ []) :
    (describeNumericCol col).lookup "count"
        = some (StatVal.num ((colInts col).length : ℚ)) ∧
    (describeNumericCol col).lookup "mean"
        = some (StatVal.num (meanQ (colInts col))) ∧
    (describeNumericCol col).lookup "min"
        = some (StatVal.num (((sortInts (colInts col)).getD 0 0 : ℤ) : ℚ)) ∧
    (describeNumericCol col).lookup "25%"
        = some (StatVal.num (quantileLinear (1/4) (sortInts (colInts col)))) ∧
    (describeNumericCol col).lookup "50%"
        = some (StatVal.num (quantileLinear (1/2) (sortInts (colInts col)))) ∧
    (describeNumericCol col).lookup "75%"
        = some (StatVal.num (quantileLinear (3/4) (sortInts (colInts col)))) ∧
    (describeNumericCol col).lookup "max"
        = some (StatVal.num
            (((sortInts (colInts col)).getD ((colInts col).length - 1) 0 : ℤ) : ℚ)) := by
  have hn : ¬(colInts col).length = 0 := by
    simpa [List.length_eq_zero] using h
  simp only [describeNumericCol]
  rw [if_neg hn]
  exact ⟨rfl, rfl, rfl, rfl, rfl, rfl, rfl⟩

/-- C4, amended: when the loaded Dataset has at least one numeric column,
numeric_stats lists exactly the numeric columns — every non-numeric column
is excluded without error — and gives each one the metrics count, mean,
std, min, 25%, 50%, 75%, max, the quartiles by the linear-interpolation
percentile method applied to the sorted values.  (When no numeric column
exists at all the code behaves differently; see the counterexample.) -/
theorem C4_numeric_stats (ds : Dataset)
    (hnum : (ds.colNames.zip ds.columns).any (fun p => colIsNumericCells p.2) = true) :
    (processData ds).numeric_stats.map Prod.fst
      = ((ds.colNames.zip ds.columns).filter fun p => colIsNumericCells p.2).map
          Prod.fst ∧
    (∀ e ∈ (processData ds).numeric_stats,
      e.2.map Prod.fst = ["count", "mean", "std", "min", "25%", "50%", "75%", "max"]) ∧
    (∀ p ∈ (ds.colNames.zip ds.columns).filter fun p => colIsNumericCells p.2,
      (p.1, describeNumericCol p.2) ∈ (processData ds).numeric_stats) ∧
    (∀ col : List Cell, colInts col ≠ [] →
      (describeNumericCol col).lookup "50%"
        = some (StatVal.num (quantileLinear (1/2) (sortInts (colInts col)))) ∧
      (describeNumericCol col).lookup "25%"
        = some (StatVal.num (quantileLinear (1/4) (sortInts (colInts col)))) ∧
      (describeNumericCol col).lookup "75%"
        = some (StatVal.num (quantileLinear (3/4) (sortInts (colInts col))))) ∧
    (∀ v : List ℤ, (sortInts v).Sorted (· ≤ ·) ∧ (sortInts v).Perm v) := by
  have hne : ((ds.colNames.zip ds.columns).filter fun p => colIsNumericCells p.2)
      ≠ [] := by
    rw [ne_eq, List.filter_eq_nil_iff]
    obtain ⟨p, hp, hnp⟩ := List.any_eq_true.mp hnum
    exact fun hall => (hall p hp) hnp
  have hdesc : describe ds
      = ((ds.colNames.zip ds.columns).filter fun p => colIsNumericCells p.2).map
          fun p => (p.1, describeNumericCol p.2) := by
    simp only [describe]
    rw [if_neg (by simpa [List.isEmpty_iff] using hne)]
  have hstats : (processData ds).numeric_stats = describe ds := rfl
  refine ⟨?_, ?_, ?_, ?_, ?_⟩
  · rw [hstats, hdesc, List.map_map]
    rfl
  · intro e he
    rw [hstats, hdesc] at he
    obtain ⟨p, _, rfl⟩ := List.mem_map.mp he
    exact describeNumericCol_keys p.2
  · intro p hp
    rw [hstats, hdesc]
    exact List.mem_map_of_mem _ hp
  · intro col hcol
    obtain ⟨_, _, _, h25, h50, h75, _⟩ := describeNumericCol_lookup col hcol
    exact ⟨h50, h25, h75⟩
  · intro v
    exact ⟨List.sorted_insertionSort _ v, List.perm_insertionSort _ v⟩

/-- An all-object sample file: one column a holding the non-numeric values
x and y. -/
def csvStr : Csv := { header := [['a']], rows := [[['x']], [['y']]] }

/-- C4, counterexample: on a Dataset whose only column is non-numeric,
describe() does not exclude the column from numeric_stats — it falls back
to the object summary, so numeric_stats holds that non-numeric column with
the metrics count, unique, top, freq instead of being empty. -/
theorem C4_counterexample :
    colIsNumericCells ((loadCsv csvStr).columns.getD 0 []) = false ∧
    (processData (loadCsv csvStr)).numeric_stats.map Prod.fst = [['a']] ∧
    ((processData (loadCsv csvStr)).numeric_stats.getD 0 ([], [])).2.map Prod.fst
      = ["count", "unique", "top", "freq"] := by
  refine ⟨by decide, by decide, by decide⟩

/-- C4, witness: C4_numeric_stats on the loaded 2-by-2 sample file, whose
column a is numeric and whose column b is not. -/
theorem C4_numeric_stats_witness :
    (processData (loadCsv csvAB)).numeric_stats.map Prod.fst
      = (((loadCsv csvAB).colNames.zip (loadCsv csvAB).columns).filter fun p =>
          colIsNumericCells p.2).map Prod.fst ∧
    (∀ e ∈ (processData (loadCsv csvAB)).numeric_stats,
      e.2.map Prod.fst = ["count", "mean", "std", "min", "25%", "50%", "75%", "max"]) ∧
    (∀ p ∈ ((loadCsv csvAB).colNames.zip (loadCsv csvAB).columns).filter fun p =>
        colIsNumericCells p.2,
      (p.1, describeNumericCol p.2) ∈ (processData (loadCsv csvAB)).numeric_stats) ∧
    (∀ col : List Cell, colInts col ≠ [] →
      (describeNumericCol col).lookup "50%"
        = some (StatVal.num (quantileLinear (1/2) (sortInts (colInts col)))) ∧
      (describeNumericCol col).lookup "25%"
        = some (StatVal.num (quantileLinear (1/4) (sortInts (colInts col)))) ∧
      (describeNumericCol col).lookup "75%"
        = some (StatVal.num (quantileLinear (3/4) (sortInts (colInts col))))) ∧
    (∀ v : List ℤ, (sortInts v).Sorted (· ≤ ·) ∧ (sortInts v).Perm v) :=
  C4_numeric_stats (loadCsv csvAB) (by decide)

end Tabular
